import Mathlib

/-!
Verification development for the surveyor-api progress pipeline
(`src/index.js` of nypl-spacetime/surveyor-api).

The JavaScript handler `app.post('/items/:uuid')`, the conditional
upsert it issues, the `locations` read query and the token middleware
are embedded as pure Lean functions.  JavaScript values that the code
only inspects for truthiness or passes through are modelled by a JSON
value type `JVal`; absent object properties are `Option.none`.  The
database table is a list of rows; `JSON.stringify`-ed payloads are kept
as their structured values (the serialization is injective and the code
never re-parses them).
-/

/-- JSON values as carried in request bodies and stored in the
`data` / `client` / `geometry` columns. -/
inductive JVal where
  | null : JVal
  | bool : Bool → JVal
  | num : ℚ → JVal
  | str : String → JVal
  | arr : List JVal → JVal
  | obj : List (String × JVal) → JVal

/-- JavaScript truthiness of a JSON value: `null`, `false`, `0` and the
empty string are falsy; arrays and objects (even empty) are truthy. -/
def JVal.truthy : JVal → Bool
  | .null => false
  | .bool b => b
  | .num q => decide (q ≠ 0)
  | .str s => s != ""
  | .arr _ => true
  | .obj _ => true

/-- Truthiness of a possibly-absent (JavaScript `undefined`) property. -/
def jsTruthy : Option JVal → Bool
  | none => false
  | some v => v.truthy

/-- Truthiness of a possibly-absent string property. -/
def jsTruthyStr : Option String → Bool
  | none => false
  | some s => s != ""

/-- JavaScript `x >= 0` for a possibly-absent numeric property:
`undefined >= 0` is `false`; for a number it is the ordinary
comparison (no integrality requirement). -/
def jsGeZero : Option ℚ → Bool
  | none => false
  | some q => decide (0 ≤ q)

/-- GeoJSON geometries, with rational coordinates (the claims only
evaluate integral ones, where JavaScript and Lean agree on printing). -/
inductive Geom where
  | point : List ℚ → Geom
  | lineString : List (List ℚ) → Geom

/-- Arithmetic mean of a list of rationals (0 on the empty list, which
is only reached behind an emptiness guard). -/
def avgQ (l : List ℚ) : ℚ := l.sum / (l.length : ℚ)

/-- Modelled from the spec: the `turf-centroid` dependency is not part
of this repository; per spec §4.2 `centroidOf` is the arithmetic
centroid of the geometry's coordinate set — for a Point the point
itself, for a LineString the unweighted mean of its vertices. -/
def turfCentroid : Geom → Option (List ℚ)
  | .point c => some c
  | .lineString cs =>
    if cs.isEmpty then none
    else some [avgQ (cs.map (fun p => p.headD 0)), avgQ (cs.map (fun p => p.getD 1 0))]

/-- JavaScript number-to-string conversion, exact on integers (`1`
prints as `"1"`); non-integral rationals are printed in Lean's own
format, which no claim evaluates. -/
def jsNumToString (q : ℚ) : String :=
  if q.den = 1 then toString q.num else toString q

/-- `coordinates.join(',')` from line 362 of `src/index.js`. -/
def joinCoords (c : List ℚ) : String :=
  String.intercalate "," (c.map jsNumToString)

/-- A catalog entry as used by the handler: only its `imageID` field is
read (it may be absent). -/
structure CatalogItem where
  imageID : Option String

/-- The POSTed GeoJSON feature, with every property optional, mirroring
a JavaScript object. `completed` keeps only its truthiness. -/
structure SubmitFeature where
  step : Option String
  stepIndex : Option ℚ
  completed : Option Bool
  data : Option JVal
  geometry : Option Geom

/-- A stored row of the `locations` table (`createTable`,
lines 114-128 of `src/index.js`).  Timestamps are abstract ticks. -/
structure DbRow where
  uuid : String
  session : String
  step : String
  step_index : ℚ
  completed : Bool
  image_id : Option String
  date_created : Nat
  date_modified : Nat
  data : Option JVal
  client : Option JVal
  geometry : Option Geom
  centroid : Option String

/-- The values the handler binds into the INSERT (the `row` object of
lines 282-293, after all mutations). -/
structure NewRow where
  uuid : String
  session : String
  step : String
  step_index : ℚ
  image_id : Option String
  completed : Bool
  data : Option JVal
  client : Option JVal
  geometry : Option Geom
  centroid : Option String

/-- Conflict on the `locations_pkey` primary key `(uuid, session, step)`. -/
def keyMatches (r : DbRow) (n : NewRow) : Bool :=
  r.uuid == n.uuid && r.session == n.session && r.step == n.step

/-- A freshly inserted row: `date_created` and `date_modified` take
their column DEFAULT, the current timestamp. -/
def insertRow (n : NewRow) (now : Nat) : DbRow :=
  { uuid := n.uuid, session := n.session, step := n.step,
    step_index := n.step_index, completed := n.completed,
    image_id := n.image_id,
    date_created := now, date_modified := now,
    data := n.data, client := n.client,
    geometry := n.geometry, centroid := n.centroid }

/-- The `DO UPDATE SET` list of lines 383-390: `step_index`,
`completed`, `data`, `client`, `geometry`, `centroid` come from the
EXCLUDED (incoming) row, `date_modified` is refreshed; `uuid`,
`session`, `step`, `image_id` and `date_created` are untouched. -/
def updateRow (old : DbRow) (n : NewRow) (now : Nat) : DbRow :=
  { old with
    step_index := n.step_index, completed := n.completed,
    date_modified := now,
    data := n.data, client := n.client,
    geometry := n.geometry, centroid := n.centroid }

/-- The conditional upsert of lines 379-391:

`INSERT ... ON CONFLICT (uuid, session, step) WHERE NOT completed
DO UPDATE SET ... WHERE EXCLUDED.completed;`

PostgreSQL reads the clause `WHERE NOT completed` inside the conflict
target as an index-inference predicate only: it selects which unique
index arbitrates the conflict, and the non-conditional primary-key
index `locations_pkey` satisfies every such predicate, so it is
inferred and the predicate imposes no condition on the update.  The
only guard on `DO UPDATE` is its own `WHERE EXCLUDED.completed`: the
update runs exactly when the incoming row has `completed = true`,
regardless of the stored row's `completed` value.  Hence: no existing
row → plain insert; existing row and incoming `completed = true` →
overwrite (even of an already-completed row); existing row and
incoming `completed = false` → no change at all. -/
def commitStep (db : List DbRow) (n : NewRow) (now : Nat) : List DbRow :=
  if db.any (fun r => keyMatches r n) then
    if n.completed then
      db.map (fun r => if keyMatches r n then updateRow r n now else r)
    else db
  else db ++ [insertRow n now]

/-- The WebSocket message built by `locationToFeature` (lines 213-226)
from the row object after `Object.assign(row, ...)` in `emitEvent`'s
call site (lines 400-403): `data` and `geometry` are the raw submitted
values, not the stored serializations. -/
structure BroadcastFeature where
  uuid : String
  imageId : Option String
  step : String
  completed : Bool
  url : String
  data : Option JVal
  geometry : Option Geom

/-- `locationToFeature` applied to the submitted row. -/
def mkBroadcast (n : NewRow) (featData : Option JVal) (featGeom : Option Geom) :
    BroadcastFeature :=
  { uuid := n.uuid, imageId := n.image_id, step := n.step,
    completed := n.completed,
    url := "http://digitalcollections.nypl.org/items/" ++ n.uuid,
    data := featData, geometry := featGeom }

/-- An error response body, `res.send` of an object with
`result: 'error'` and a message. -/
def errBody (msg : JVal) : JVal :=
  JVal.obj [("result", JVal.str "error"), ("message", msg)]

/-- The success body of line 404. -/
def successBody : JVal :=
  JVal.obj [("result", JVal.str "success")]

/-- The observable outcome of one POST request: HTTP status, response
body, resulting table contents and the WebSocket messages broadcast. -/
structure SubmitResult where
  status : Nat
  body : JVal
  db : List DbRow
  broadcasts : List BroadcastFeature

/-- The `row` object as populated by lines 282-346 and 366-374, before
the geometry block. -/
def baseRow (items : List (String × CatalogItem)) (uuid session : String)
    (feature : SubmitFeature) (completedB : Bool) (dataStored : Option JVal)
    (ip : String) : NewRow :=
  { uuid := uuid, session := session,
    step := feature.step.getD "",
    step_index := feature.stepIndex.getD 0,
    image_id := (items.lookup uuid).bind CatalogItem.imageID,
    completed := completedB, data := dataStored,
    client := some (JVal.obj [("ip", JVal.str ip)]),
    geometry := none, centroid := none }

/-- The tail of the handler (lines 393-408): the upsert succeeds, then
`emitEvent` broadcasts the submitted record unconditionally and the
handler answers 200. -/
def postFinish (db : List DbRow) (now : Nat) (nrow : NewRow)
    (featData : Option JVal) (featGeom : Option Geom) : SubmitResult :=
  { status := 200, body := successBody,
    db := commitStep db nrow now,
    broadcasts := [mkBroadcast nrow featData featGeom] }

/-- The geometry block of lines 348-364: if a geometry is present, run
`geojsonhint` (modelled as the parameter `hint`, applied to the whole
feature as the source does); any message aborts with 406 echoing the
single message or the full array; otherwise store the geometry and the
joined centroid coordinates. -/
def postGeometry (hint : SubmitFeature → List String) (feature : SubmitFeature)
    (db : List DbRow) (now : Nat) (nrow : NewRow) : SubmitResult :=
  match feature.geometry with
  | some g =>
    let errs := hint feature
    if 0 < errs.length then
      { status := 406,
        body := errBody (if errs.length = 1 then JVal.str (errs.headD "")
          else JVal.arr (errs.map JVal.str)),
        db := db, broadcasts := [] }
    else
      postFinish db now
        { nrow with geometry := some g,
                    centroid := (turfCentroid g).map joinCoords }
        feature.data feature.geometry
  | none => postFinish db now nrow feature.data feature.geometry

/-- The POST `/items/:uuid` handler (lines 281-409), after `checkToken`
has established `session`.  Validation order follows the source: item
lookup (404), step and stepIndex presence (406), the completed/data
pairing (406) — note line 337 tests `feature.properties.data ||
feature.properties.data`, the data property twice, so a non-completed
feature carrying only a geometry passes — then the geometry block, the
upsert and the unconditional broadcast. -/
def handlePost (items : List (String × CatalogItem))
    (hint : SubmitFeature → List String)
    (db : List DbRow) (now : Nat) (uuid session ip : String)
    (feature : SubmitFeature) : SubmitResult :=
  if !(uuid != "" && (items.lookup uuid).isSome) then
    { status := 404, body := errBody (JVal.str "Not found"),
      db := db, broadcasts := [] }
  else if !(jsTruthyStr feature.step && jsGeZero feature.stepIndex) then
    { status := 406,
      body := errBody (JVal.str "Feature should contain step and stepIndex"),
      db := db, broadcasts := [] }
  else if feature.completed.getD false then
    if !(jsTruthy feature.data) then
      { status := 406,
        body := errBody (JVal.str "Completed steps should contain data"),
        db := db, broadcasts := [] }
    else
      postGeometry hint feature db now
        (baseRow items uuid session feature true feature.data ip)
  else if jsTruthy feature.data || jsTruthy feature.data then
    { status := 406,
      body := errBody (JVal.str "Only completed steps should contain data or geometry"),
      db := db, broadcasts := [] }
  else
    postGeometry hint feature db now
      (baseRow items uuid session feature false none ip)

/-- Maximum of a list of rationals, `none` on the empty list (the SQL
`MAX` aggregate over a group). -/
def maxQ? : List ℚ → Option ℚ
  | [] => none
  | x :: xs =>
    match maxQ? xs with
    | none => some x
    | some m => some (max x m)

/-- The rows of one `GROUP BY uuid, session` group of the inner query
of `locationsQuery` (lines 411-418), i.e. the `WHERE completed` rows of
a given pair. -/
def completedRows (db : List DbRow) (u s : String) : List DbRow :=
  db.filter fun r => r.uuid == u && r.session == s && r.completed

/-- `MAX(step_index)` over the completed rows of a `(uuid, session)`
pair. -/
def completedMaxStep (db : List DbRow) (u s : String) : Option ℚ :=
  maxQ? ((completedRows db u s).map (fun r => r.step_index))

/-- Insertion into a list kept in descending `date_modified` order. -/
def insertByDM (r : DbRow) : List DbRow → List DbRow
  | [] => [r]
  | x :: xs =>
    if x.date_modified ≤ r.date_modified then r :: x :: xs
    else x :: insertByDM r xs

/-- `ORDER BY date_modified DESC` (ties resolved arbitrarily by the
database; the model fixes one order). -/
def sortByDM : List DbRow → List DbRow
  | [] => []
  | x :: xs => insertByDM x (sortByDM xs)

/-- `locationsQuery` (lines 411-418): the inner query selects, per
`(uuid, session)` pair, the maximal `step_index` among completed rows;
the join then returns every `locations` row of the same pair whose
`step_index` equals that maximum — the join condition does not repeat
the `completed` filter — ordered by `date_modified` descending. -/
def latestPerSession (db : List DbRow) : List DbRow :=
  sortByDM (db.filter fun l =>
    decide (completedMaxStep db l.uuid l.session = some l.step_index))

/-- Outcome of the Express auth middlewares: pass the request on
(optionally setting a response `Authorization` header and the verified
session), or answer 401. -/
inductive MiddlewareResult where
  | next (authHeaderSet : Option String) (session : Option String) : MiddlewareResult
  | unauthorized : MiddlewareResult
deriving DecidableEq

/-- `checkOrCreateToken` (lines 175-184): if the `Authorization` header
is falsy, sign a fresh random session (`sign`, `freshSession` model
`jwt.sign` with the server key and `randomString()`) and set it on the
response; otherwise echo the presented header back.  The presented
credential is never verified and the middleware always calls
`next()`. -/
def checkOrCreateToken (sign : String → String) (freshSession : String)
    (authorization : Option String) : MiddlewareResult :=
  if !(jsTruthyStr authorization) then
    MiddlewareResult.next (some (sign freshSession)) none
  else
    MiddlewareResult.next authorization none

/-- `checkToken` (lines 186-206): 401 on a falsy header, otherwise
verify the token (`verify` models `jwt.verify` with the server key,
returning the embedded session on success) and either 401 or proceed
with the session established. -/
def checkToken (verify : String → Option String)
    (authorization : Option String) : MiddlewareResult :=
  if !(jsTruthyStr authorization) then
    MiddlewareResult.unauthorized
  else
    match verify (authorization.getD "") with
    | none => MiddlewareResult.unauthorized
    | some sess => MiddlewareResult.next none (some sess)

/-- Extract a string from a JSON value, for reading back error
messages. -/
def jstrOf : JVal → Option String
  | .str s => some s
  | _ => none

/-- The validation messages surfaced by a response body: the `message`
field read as a single string or as an array of strings. -/
def bodyMessages : JVal → List String
  | .obj fields =>
    match fields.lookup "message" with
    | some (JVal.str s) => [s]
    | some (JVal.arr xs) => xs.filterMap jstrOf
    | _ => []
  | _ => []

/-- A one-item catalog used by the concrete scenarios. -/
def exItems : List (String × CatalogItem) := [("u1", { imageID := some "img1" })]

/-- A `geojsonhint` that reports no problems. -/
def hintOk : SubmitFeature → List String := fun _ => []

/-- A `geojsonhint` that reports two problems. -/
def hintBad : SubmitFeature → List String := fun _ => ["Bad ring", "Bad type"]

/-- A completed submission with data and no geometry. -/
def doneFeature : SubmitFeature :=
  { step := some "locate", stepIndex := some 0, completed := some true,
    data := some (JVal.str "d"), geometry := none }

/-- A non-completed submission with no data and no geometry. -/
def progressFeature : SubmitFeature :=
  { step := some "locate", stepIndex := some 1, completed := none,
    data := none, geometry := none }

/-- A non-completed submission carrying a geometry and no data. -/
def geomProgressFeature : SubmitFeature :=
  { step := some "locate", stepIndex := some 1, completed := none,
    data := none, geometry := some (Geom.point [3, 4]) }

/-- The spec's example scenario: completed, with data and the Point
geometry `[1,2]`. -/
def pointFeature : SubmitFeature :=
  { step := some "locate", stepIndex := some 0, completed := some true,
    data := some (JVal.obj [("note", JVal.str "here")]),
    geometry := some (Geom.point [1, 2]) }

/-- A completed submission whose geometry the validator rejects. -/
def badGeomFeature : SubmitFeature :=
  { step := some "locate", stepIndex := some 0, completed := some true,
    data := some (JVal.str "d"), geometry := some (Geom.point []) }

/-- A completed submission with the `data` property missing. -/
def noDataFeature : SubmitFeature :=
  { step := some "locate", stepIndex := some 0, completed := some true,
    data := none, geometry := none }

/-- A submission whose `stepIndex` is the non-integer `1/2`. -/
def halfStepFeature : SubmitFeature :=
  { step := some "locate", stepIndex := some (mkRat 1 2), completed := some true,
    data := some (JVal.str "d"), geometry := none }

/-- A submission with a negative `stepIndex`. -/
def negStepFeature : SubmitFeature :=
  { step := some "locate", stepIndex := some (-1), completed := none,
    data := none, geometry := none }

/-- A stored, already-completed row for `(u1, s, locate)`. -/
def doneRow : DbRow :=
  { uuid := "u1", session := "s", step := "locate", step_index := 0,
    completed := true, image_id := some "img1",
    date_created := 1, date_modified := 1,
    data := some (JVal.str "A"), client := none,
    geometry := none, centroid := none }

/-- An incoming completed record for the same triple with different
payload. -/
def doneOverwrite : NewRow :=
  { uuid := "u1", session := "s", step := "locate", step_index := 3,
    image_id := some "img1", completed := true,
    data := some (JVal.str "B"), client := none,
    geometry := none, centroid := none }

/-- The same stored triple, still in progress. -/
def progressRow : DbRow := { doneRow with completed := false }

/-- An incoming non-completed record for the same triple with a
different `step_index`. -/
def progressResubmit : NewRow := { doneOverwrite with completed := false }

/-- Another non-completed incoming record, used by a separate
instantiation. -/
def progressResubmitW : NewRow := { progressResubmit with step_index := 7 }

/-- A completed row holding the session's maximal completed
`step_index`. -/
def maxRowDone : DbRow :=
  { uuid := "u1", session := "s", step := "a", step_index := 2,
    completed := true, image_id := none,
    date_created := 1, date_modified := 5,
    data := none, client := none, geometry := none, centroid := none }

/-- A non-completed row of the same pair whose `step_index` ties the
completed maximum. -/
def maxRowProg : DbRow :=
  { maxRowDone with step := "b", completed := false, date_modified := 3 }

theorem maxQ_eq_some_iff (l : List ℚ) (m : ℚ) :
    maxQ? l = some m ↔ m ∈ l ∧ ∀ x ∈ l, x ≤ m := by
  induction l generalizing m with
  | nil => simp [maxQ?]
  | cons a t ih =>
    cases ht : maxQ? t with
    | none =>
      have ht0 : t = [] := by
        cases t with
        | nil => rfl
        | cons b t2 =>
          exfalso
          revert ht
          rw [maxQ?]
          cases maxQ? t2 <;> simp
      subst ht0
      simp only [maxQ?, Option.some_inj, List.mem_singleton,
        List.forall_mem_singleton]
      constructor
      · intro h
        subst h
        exact ⟨rfl, fun x hx => le_of_eq hx⟩
      · rintro ⟨hm, _⟩
        exact hm.symm
    | some mt =>
      obtain ⟨hmem, hbound⟩ := (ih mt).mp ht
      simp only [maxQ?, ht, Option.some_inj]
      constructor
      · intro h
        subst h
        refine ⟨?_, ?_⟩
        · rcases max_choice a mt with h | h <;> rw [h]
          · exact List.mem_cons_self a t
          · exact List.mem_cons_of_mem a hmem
        · intro x hx
          rcases List.mem_cons.mp hx with rfl | hx
          · exact le_max_left _ _
          · exact le_trans (hbound x hx) (le_max_right _ _)
      · rintro ⟨hm, hb⟩
        have ha : a ≤ m := hb a (List.mem_cons_self a t)
        have hmt2 : mt ≤ m := hb mt (List.mem_cons_of_mem a hmem)
        have h2 : m ≤ max a mt := by
          rcases List.mem_cons.mp hm with rfl | hm2
          · exact le_max_left _ _
          · exact le_trans (hbound m hm2) (le_max_right _ _)
        exact le_antisymm (max_le ha hmt2) h2

theorem mem_completedRows {db : List DbRow} {u s : String} {c : DbRow} :
    c ∈ completedRows db u s ↔
      c ∈ db ∧ c.uuid = u ∧ c.session = s ∧ c.completed = true := by
  simp [completedRows, List.mem_filter, Bool.and_eq_true, beq_iff_eq, and_assoc]

theorem completedMaxStep_eq_some_iff {db : List DbRow} {u s : String} {m : ℚ} :
    completedMaxStep db u s = some m ↔
      (∃ c, c ∈ db ∧ c.uuid = u ∧ c.session = s ∧ c.completed = true ∧
        c.step_index = m) ∧
      (∀ c, c ∈ db → c.uuid = u → c.session = s → c.completed = true →
        c.step_index ≤ m) := by
  rw [completedMaxStep, maxQ_eq_some_iff]
  constructor
  · rintro ⟨hm, hb⟩
    rw [List.mem_map] at hm
    obtain ⟨c, hc, hcm⟩ := hm
    rw [mem_completedRows] at hc
    refine ⟨⟨c, hc.1, hc.2.1, hc.2.2.1, hc.2.2.2, hcm⟩, ?_⟩
    intro c2 h1 h2 h3 h4
    exact hb c2.step_index (List.mem_map_of_mem _ (mem_completedRows.mpr ⟨h1, h2, h3, h4⟩))
  · rintro ⟨⟨c, h1, h2, h3, h4, h5⟩, hb⟩
    refine ⟨?_, ?_⟩
    · rw [List.mem_map]
      exact ⟨c, mem_completedRows.mpr ⟨h1, h2, h3, h4⟩, h5⟩
    · intro x hx
      rw [List.mem_map] at hx
      obtain ⟨c2, hc2, hcx⟩ := hx
      rw [mem_completedRows] at hc2
      rw [← hcx]
      exact hb c2 hc2.1 hc2.2.1 hc2.2.2.1 hc2.2.2.2

theorem mem_insertByDM {r x : DbRow} {l : List DbRow} :
    x ∈ insertByDM r l ↔ x = r ∨ x ∈ l := by
  induction l with
  | nil => simp [insertByDM]
  | cons a t ih =>
    by_cases h : a.date_modified ≤ r.date_modified
    · simp [insertByDM, h]
    · simp only [insertByDM, if_neg h, List.mem_cons, ih]
      tauto

theorem mem_sortByDM {x : DbRow} {l : List DbRow} :
    x ∈ sortByDM l ↔ x ∈ l := by
  induction l with
  | nil => simp [sortByDM]
  | cons a t ih => simp [sortByDM, mem_insertByDM, ih]

theorem pairwise_insertByDM {r : DbRow} {l : List DbRow}
    (h : l.Pairwise fun a b => b.date_modified ≤ a.date_modified) :
    (insertByDM r l).Pairwise fun a b => b.date_modified ≤ a.date_modified := by
  induction l with
  | nil => simp [insertByDM]
  | cons a t ih =>
    obtain ⟨ha, ht⟩ := List.pairwise_cons.mp h
    by_cases hle : a.date_modified ≤ r.date_modified
    · rw [insertByDM, if_pos hle]
      refine List.pairwise_cons.mpr ⟨?_, h⟩
      intro y hy
      rcases List.mem_cons.mp hy with rfl | hy2
      · exact hle
      · exact le_trans (ha y hy2) hle
    · rw [insertByDM, if_neg hle]
      refine List.pairwise_cons.mpr ⟨?_, ih ht⟩
      intro y hy
      rcases mem_insertByDM.mp hy with rfl | hy2
      · exact le_of_not_le hle
      · exact ha y hy2

theorem pairwise_sortByDM (l : List DbRow) :
    (sortByDM l).Pairwise fun a b => b.date_modified ≤ a.date_modified := by
  induction l with
  | nil => simp [sortByDM]
  | cons a t ih => exact pairwise_insertByDM ih

theorem filterMap_jstrOf_map_str (l : List String) :
    (l.map JVal.str).filterMap jstrOf = l := by
  induction l with
  | nil => rfl
  | cons a t ih => simp [List.filterMap_cons, jstrOf, ih]

theorem bodyMessages_geomErr (errs : List String) (h : errs ≠ []) :
    bodyMessages (errBody (if errs.length = 1 then JVal.str (errs.headD "")
      else JVal.arr (errs.map JVal.str))) = errs := by
  match errs with
  | [] => exact absurd rfl h
  | [a] => rfl
  | a :: b :: t =>
    calc bodyMessages (errBody (JVal.arr ((a :: b :: t).map JVal.str)))
        = ((a :: b :: t).map JVal.str).filterMap jstrOf := rfl
      _ = a :: b :: t := filterMap_jstrOf_map_str _

theorem postGeometry_success_broadcasts
    (hint : SubmitFeature → List String) (feature : SubmitFeature)
    (db : List DbRow) (now : Nat) (nrow : NewRow)
    (h : (postGeometry hint feature db now nrow).status = 200) :
    (postGeometry hint feature db now nrow).broadcasts.length = 1 := by
  revert h
  unfold postGeometry
  cases hg : feature.geometry with
  | none => intro h; rfl
  | some g =>
    by_cases he : 0 < (hint feature).length
    · simp [he]
    · simp [he]
      intro h
      rfl

/-- C1: the stored row for `(u1, s, locate)` is already completed with
data `"A"`, yet a subsequent commit with `completed = true` and data
`"B"` rewrites `step_index`, `data` and `date_modified` — the
conditional upsert's only update guard is `WHERE EXCLUDED.completed`,
so Done is not a terminal no-op state. -/
theorem c1_completed_row_overwritten :
    doneRow.completed = true ∧ doneOverwrite.completed = true ∧
    doneRow.data = some (JVal.str "A") ∧ doneRow.step_index = 0 ∧
    (commitStep [doneRow] doneOverwrite 5).map
        (fun r => (r.completed, r.data, r.step_index, r.date_modified)) =
      [(true, some (JVal.str "B"), 3, 5)] :=
  ⟨rfl, rfl, rfl, rfl, rfl⟩

/-- C2 counterexample: a valid non-completed submission (no data, no
geometry) succeeds with 200 and still produces one broadcast message,
because `emitEvent` is invoked unconditionally on upsert success. -/
theorem c2_noncompleted_success_broadcasts :
    progressFeature.completed = none ∧
    (handlePost exItems hintOk [] 7 "u1" "sess" "ip" progressFeature).status
      = 200 ∧
    (handlePost exItems hintOk [] 7 "u1" "sess" "ip"
      progressFeature).broadcasts.length = 1 :=
  ⟨rfl, rfl, rfl⟩

/-- C2 amended: every submission the handler answers with 200 produces
exactly one broadcast message, whether or not it was completed. -/
theorem c2_success_always_broadcasts (items : List (String × CatalogItem))
    (hint : SubmitFeature → List String) (db : List DbRow) (now : Nat)
    (uuid session ip : String) (feature : SubmitFeature)
    (h : (handlePost items hint db now uuid session ip feature).status = 200) :
    (handlePost items hint db now uuid session ip feature).broadcasts.length
      = 1 := by
  revert h
  unfold handlePost
  split
  · simp
  · split
    · simp
    · split
      · split
        · simp
        · exact postGeometry_success_broadcasts _ _ _ _ _
      · split
        · simp
        · exact postGeometry_success_broadcasts _ _ _ _ _

/-- C2 witness: a concrete completed submission succeeds and the
amended theorem yields its single broadcast. -/
theorem c2_success_always_broadcasts_witness :
    (handlePost exItems hintOk [] 7 "u1" "sess" "ip"
      doneFeature).broadcasts.length = 1 :=
  c2_success_always_broadcasts exItems hintOk [] 7 "u1" "sess" "ip"
    doneFeature rfl

/-- C3: a non-completed submission carrying a geometry and no data is
accepted with 200 and stored: the resulting table holds a row with
`completed = false` and a geometry, because line 337 tests
`feature.properties.data || feature.properties.data` — the data
property twice — instead of data or geometry as its own error message
states. -/
theorem c3_noncompleted_geometry_stored :
    geomProgressFeature.completed = none ∧
    geomProgressFeature.geometry.isSome = true ∧
    (handlePost exItems hintOk [] 7 "u1" "sess" "ip"
      geomProgressFeature).status = 200 ∧
    (handlePost exItems hintOk [] 7 "u1" "sess" "ip"
      geomProgressFeature).db.map (fun r => (r.completed, r.geometry.isSome)) =
      [(false, true)] :=
  ⟨rfl, rfl, rfl, rfl⟩

/-- C4 counterexample: the stored row for the triple is in progress
(`completed = false`) and a subsequent non-completed commit carries a
different `step_index`, yet the table is left completely unchanged —
the `DO UPDATE` clause runs only `WHERE EXCLUDED.completed`, so an
InProgress to InProgress transition refreshes nothing. -/
theorem c4_inprogress_resubmit_ignored :
    progressRow.completed = false ∧ progressResubmit.completed = false ∧
    progressResubmit.step_index ≠ progressRow.step_index ∧
    commitStep [progressRow] progressResubmit 9 = [progressRow] :=
  ⟨rfl, rfl, by decide, rfl⟩

/-- C4 amended: a commit with `completed = false` never modifies an
existing row for its triple — the whole table is returned unchanged
whenever the key already exists. -/
theorem c4_noncompleted_commit_is_noop (db : List DbRow) (n : NewRow)
    (now : Nat) (hc : n.completed = false)
    (hk : db.any (fun r => keyMatches r n) = true) :
    commitStep db n now = db := by
  rw [commitStep, if_pos hk, hc]
  rfl

/-- C4 witness: a concrete non-completed resubmission over an existing
in-progress row leaves the table unchanged. -/
theorem c4_noncompleted_commit_is_noop_witness :
    commitStep [progressRow] progressResubmitW 11 = [progressRow] :=
  c4_noncompleted_commit_is_noop [progressRow] progressResubmitW 11 rfl rfl

/-- C5 counterexample: with one completed row and one non-completed row
of the same `(uuid, session)` pair sharing `step_index = 2`, the query
returns two records for the same session, the second of which is not
completed — the join back to `locations` does not repeat the
`completed` filter and nothing deduplicates per session. -/
theorem c5_two_rows_one_session :
    maxRowDone.session = maxRowProg.session ∧
    (latestPerSession [maxRowDone, maxRowProg]).map
        (fun r => (r.session, r.completed)) =
      [("s", true), ("s", false)] :=
  ⟨rfl, rfl⟩

/-- C5 amended: `latestPerSession` returns exactly the rows (completed
or not) whose `step_index` is attained by, and bounds, the completed
rows of the same `(uuid, session)` pair, ordered by `date_modified`
descending; a session may contribute several records. -/
theorem c5_latest_characterization (db : List DbRow) :
    (∀ r, r ∈ latestPerSession db ↔
      (r ∈ db ∧
        (∃ c, c ∈ db ∧ c.uuid = r.uuid ∧ c.session = r.session ∧
          c.completed = true ∧ c.step_index = r.step_index) ∧
        (∀ c, c ∈ db → c.uuid = r.uuid → c.session = r.session →
          c.completed = true → c.step_index ≤ r.step_index))) ∧
    (latestPerSession db).Pairwise
      (fun a b => b.date_modified ≤ a.date_modified) := by
  constructor
  · intro r
    rw [latestPerSession, mem_sortByDM, List.mem_filter,
      decide_eq_true_eq, completedMaxStep_eq_some_iff]
  · exact pairwise_sortByDM _

/-- C6 counterexample: a submission whose `stepIndex` is the
non-integer `1/2` passes the `stepIndex >= 0` check and the whole
pipeline answers 200 — no ValidationError is raised (any failure to
store `1/2` in the integer column would be a 500 persistence error,
not a 406). -/
theorem c6_half_step_index_accepted :
    halfStepFeature.stepIndex = some (mkRat 1 2) ∧
    (mkRat 1 2).den ≠ 1 ∧
    (handlePost exItems hintOk [] 7 "u1" "sess" "ip" halfStepFeature).status
      = 200 :=
  ⟨rfl, by decide, rfl⟩

/-- C6 amended: the 406 step/stepIndex ValidationError is raised when
`step` is falsy or `stepIndex` fails the JavaScript comparison
`>= 0` (absent or negative); it performs no integrality check, so any
non-negative number passes. On this rejection nothing is written and
nothing is broadcast. -/
theorem c6_step_check_rejection (items : List (String × CatalogItem))
    (hint : SubmitFeature → List String) (db : List DbRow) (now : Nat)
    (uuid session ip : String) (feature : SubmitFeature)
    (h1 : (uuid != "" && (items.lookup uuid).isSome) = true)
    (h2 : (jsTruthyStr feature.step && jsGeZero feature.stepIndex) = false) :
    handlePost items hint db now uuid session ip feature =
      { status := 406,
        body := errBody (JVal.str "Feature should contain step and stepIndex"),
        db := db, broadcasts := [] } := by
  unfold handlePost
  rw [h1, h2]
  rfl

/-- C6 witness: a concrete negative `stepIndex` is rejected with the
step/stepIndex 406 and no write or broadcast. -/
theorem c6_step_check_rejection_witness :
    handlePost exItems hintOk [] 7 "u1" "sess" "ip" negStepFeature =
      { status := 406,
        body := errBody (JVal.str "Feature should contain step and stepIndex"),
        db := [], broadcasts := [] } :=
  c6_step_check_rejection exItems hintOk [] 7 "u1" "sess" "ip" negStepFeature
    rfl rfl

theorem postGeometry_geom_errs (hint : SubmitFeature → List String)
    (feature : SubmitFeature) (db : List DbRow) (now : Nat) (nrow : NewRow)
    (g : Geom) (hg : feature.geometry = some g) (he : hint feature ≠ []) :
    postGeometry hint feature db now nrow =
      { status := 406,
        body := errBody (if (hint feature).length = 1
          then JVal.str ((hint feature).headD "")
          else JVal.arr ((hint feature).map JVal.str)),
        db := db, broadcasts := [] } := by
  have hlen : 0 < (hint feature).length := List.length_pos.mpr he
  unfold postGeometry
  rw [hg]
  simp only [if_pos hlen]

/-- C7: when the item exists, the step and completed/data checks pass
and a geometry is present for which the validator reports messages, the
submission is rejected with 406, the body surfaces every validator
message, no row is written and nothing is broadcast. -/
theorem c7_invalid_geometry_rejected (items : List (String × CatalogItem))
    (hint : SubmitFeature → List String) (db : List DbRow) (now : Nat)
    (uuid session ip : String) (feature : SubmitFeature) (g : Geom)
    (h1 : (uuid != "" && (items.lookup uuid).isSome) = true)
    (h2 : (jsTruthyStr feature.step && jsGeZero feature.stepIndex) = true)
    (h3 : (feature.completed.getD false = true ∧ jsTruthy feature.data = true) ∨
      (feature.completed.getD false = false ∧ jsTruthy feature.data = false))
    (hg : feature.geometry = some g)
    (he : hint feature ≠ []) :
    (handlePost items hint db now uuid session ip feature).status = 406 ∧
    bodyMessages (handlePost items hint db now uuid session ip feature).body
      = hint feature ∧
    (handlePost items hint db now uuid session ip feature).db = db ∧
    (handlePost items hint db now uuid session ip feature).broadcasts = [] := by
  have hred : handlePost items hint db now uuid session ip feature =
      { status := 406,
        body := errBody (if (hint feature).length = 1
          then JVal.str ((hint feature).headD "")
          else JVal.arr ((hint feature).map JVal.str)),
        db := db, broadcasts := [] } := by
    unfold handlePost
    rw [h1, h2]
    rcases h3 with ⟨hc, hd⟩ | ⟨hc, hd⟩
    · rw [hc, hd]
      show postGeometry hint feature db now
        (baseRow items uuid session feature true feature.data ip) = _
      exact postGeometry_geom_errs hint feature db now _ g hg he
    · rw [hc, hd]
      show postGeometry hint feature db now
        (baseRow items uuid session feature false none ip) = _
      exact postGeometry_geom_errs hint feature db now _ g hg he
  refine ⟨?_, ?_, ?_, ?_⟩ <;> rw [hred]
  exact bodyMessages_geomErr _ he

/-- C7 witness: a concrete completed submission with a geometry the
validator rejects with two messages is refused with 406 surfacing both
messages, writes nothing and broadcasts nothing. -/
theorem c7_invalid_geometry_rejected_witness :
    (handlePost exItems hintBad [] 7 "u1" "sess" "ip" badGeomFeature).status
      = 406 ∧
    bodyMessages
        (handlePost exItems hintBad [] 7 "u1" "sess" "ip" badGeomFeature).body
      = hintBad badGeomFeature ∧
    (handlePost exItems hintBad [] 7 "u1" "sess" "ip" badGeomFeature).db
      = [] ∧
    (handlePost exItems hintBad [] 7 "u1" "sess" "ip" badGeomFeature).broadcasts
      = [] :=
  c7_invalid_geometry_rejected exItems hintBad [] 7 "u1" "sess" "ip"
    badGeomFeature (Geom.point []) rfl rfl (Or.inl ⟨rfl, rfl⟩) rfl (by decide)

/-- C8: when the item exists and the step check passes, a truthy
`completed` with falsy `data`, or a falsy `completed` with truthy
`data`, is rejected with 406, nothing is written and nothing is
broadcast. -/
theorem c8_completed_data_pairing (items : List (String × CatalogItem))
    (hint : SubmitFeature → List String) (db : List DbRow) (now : Nat)
    (uuid session ip : String) (feature : SubmitFeature)
    (h1 : (uuid != "" && (items.lookup uuid).isSome) = true)
    (h2 : (jsTruthyStr feature.step && jsGeZero feature.stepIndex) = true)
    (h3 : (feature.completed.getD false = true ∧ jsTruthy feature.data = false) ∨
      (feature.completed.getD false = false ∧ jsTruthy feature.data = true)) :
    (handlePost items hint db now uuid session ip feature).status = 406 ∧
    (handlePost items hint db now uuid session ip feature).db = db ∧
    (handlePost items hint db now uuid session ip feature).broadcasts = [] := by
  rcases h3 with ⟨hc, hd⟩ | ⟨hc, hd⟩
  · have hred : handlePost items hint db now uuid session ip feature =
        { status := 406,
          body := errBody (JVal.str "Completed steps should contain data"),
          db := db, broadcasts := [] } := by
      unfold handlePost
      rw [h1, h2, hc, hd]
      rfl
    rw [hred]
    exact ⟨rfl, rfl, rfl⟩
  · have hred : handlePost items hint db now uuid session ip feature =
        { status := 406,
          body := errBody
            (JVal.str "Only completed steps should contain data or geometry"),
          db := db, broadcasts := [] } := by
      unfold handlePost
      rw [h1, h2, hc, hd]
      rfl
    rw [hred]
    exact ⟨rfl, rfl, rfl⟩

/-- C8 witness: a concrete completed submission with no data is
rejected with 406, writing and broadcasting nothing. -/
theorem c8_completed_data_pairing_witness :
    (handlePost exItems hintOk [] 7 "u1" "sess" "ip" noDataFeature).status
      = 406 ∧
    (handlePost exItems hintOk [] 7 "u1" "sess" "ip" noDataFeature).db = [] ∧
    (handlePost exItems hintOk [] 7 "u1" "sess" "ip" noDataFeature).broadcasts
      = [] :=
  c8_completed_data_pairing exItems hintOk [] 7 "u1" "sess" "ip" noDataFeature
    rfl rfl (Or.inl ⟨rfl, rfl⟩)

/-- C9: an accepted completed submission carrying a valid Point
geometry, for a triple with no stored row, appends a row whose
`centroid` is exactly the point's coordinates joined with a comma —
derived from the geometry via the centroid computation, with no caller
input channel. -/
theorem c9_point_centroid_stored (items : List (String × CatalogItem))
    (hint : SubmitFeature → List String) (db : List DbRow) (now : Nat)
    (uuid session ip : String) (feature : SubmitFeature) (cs : List ℚ)
    (h1 : (uuid != "" && (items.lookup uuid).isSome) = true)
    (h2 : (jsTruthyStr feature.step && jsGeZero feature.stepIndex) = true)
    (hc : feature.completed.getD false = true)
    (hd : jsTruthy feature.data = true)
    (hg : feature.geometry = some (Geom.point cs))
    (hh : hint feature = [])
    (hfresh : db.any (fun r => r.uuid == uuid && r.session == session &&
      r.step == feature.step.getD "") = false) :
    (handlePost items hint db now uuid session ip feature).status = 200 ∧
    ∃ r, (handlePost items hint db now uuid session ip feature).db
        = db ++ [r] ∧
      r.completed = true ∧
      r.geometry = some (Geom.point cs) ∧
      r.centroid = some (joinCoords cs) ∧
      r.date_modified = now := by
  have he0 : ¬ 0 < (hint feature).length := by
    rw [hh]
    decide
  have hred : handlePost items hint db now uuid session ip feature =
      postFinish db now
        { baseRow items uuid session feature true feature.data ip with
            geometry := some (Geom.point cs),
            centroid := some (joinCoords cs) }
        feature.data feature.geometry := by
    unfold handlePost
    rw [h1, h2, hc, hd]
    show postGeometry hint feature db now
      (baseRow items uuid session feature true feature.data ip) = _
    unfold postGeometry
    rw [hg]
    simp only [if_neg he0]
    rfl
  have hany : (db.any fun r => keyMatches r
      { baseRow items uuid session feature true feature.data ip with
          geometry := some (Geom.point cs),
          centroid := some (joinCoords cs) }) = false := by
    simp only [keyMatches, baseRow]
    exact hfresh
  refine ⟨?_, ?_⟩
  · rw [hred]
    rfl
  · refine ⟨insertRow
      { baseRow items uuid session feature true feature.data ip with
          geometry := some (Geom.point cs),
          centroid := some (joinCoords cs) } now, ?_, rfl, rfl, rfl, rfl⟩
    rw [hred]
    show commitStep db
      { baseRow items uuid session feature true feature.data ip with
          geometry := some (Geom.point cs),
          centroid := some (joinCoords cs) } now = _
    rw [commitStep, hany]
    rfl

/-- C9 witness: the spec's example — completed submission for item
`u1` with Point `[1,2]` — succeeds, stores one row whose centroid
serializes to `"1,2"`. -/
theorem c9_point_centroid_stored_witness :
    ((handlePost exItems hintOk [] 7 "u1" "sess" "ip" pointFeature).status
        = 200 ∧
      ∃ r, (handlePost exItems hintOk [] 7 "u1" "sess" "ip" pointFeature).db
          = [] ++ [r] ∧
        r.completed = true ∧
        r.geometry = some (Geom.point [1, 2]) ∧
        r.centroid = some (joinCoords [1, 2]) ∧
        r.date_modified = 7) ∧
    joinCoords [1, 2] = "1,2" :=
  ⟨c9_point_centroid_stored exItems hintOk [] 7 "u1" "sess" "ip" pointFeature
    [1, 2] rfl rfl rfl rfl rfl rfl rfl, rfl⟩

/-- C10 counterexample: a present but empty `Authorization` header is
falsy, so `checkOrCreateToken` issues a fresh signed credential even
though the header is not absent. -/
theorem c10_empty_header_issues_token :
    (some "" ≠ (none : Option String)) ∧
    checkOrCreateToken (fun s => "signed-" ++ s) "fresh" (some "")
      = MiddlewareResult.next (some "signed-fresh") none :=
  ⟨by decide, rfl⟩

/-- C10 amended: a non-empty presented credential is echoed back
unchanged and the outcome does not depend on the signing function or
the fresh-session source (no verification happens); a fresh credential
is issued exactly when the header is falsy (absent or empty); the
middleware never answers 401. -/
theorem c10_token_passthrough (sign sign2 : String → String)
    (fresh fresh2 : String) (auth : Option String) (h : String)
    (hne : h ≠ "") :
    checkOrCreateToken sign fresh (some h)
      = MiddlewareResult.next (some h) none ∧
    checkOrCreateToken sign fresh (some h)
      = checkOrCreateToken sign2 fresh2 (some h) ∧
    (jsTruthyStr auth = false →
      checkOrCreateToken sign fresh auth
        = MiddlewareResult.next (some (sign fresh)) none) ∧
    checkOrCreateToken sign fresh auth ≠ MiddlewareResult.unauthorized := by
  have ht : jsTruthyStr (some h) = true := by
    simp [jsTruthyStr, hne]
  refine ⟨?_, ?_, ?_, ?_⟩
  · rw [checkOrCreateToken, ht]
    rfl
  · rw [checkOrCreateToken, checkOrCreateToken, ht]
    rfl
  · intro hf
    rw [checkOrCreateToken, hf]
    rfl
  · cases hb : jsTruthyStr auth
    · rw [checkOrCreateToken, hb]
      intro hcon
      exact MiddlewareResult.noConfusion hcon
    · rw [checkOrCreateToken, hb]
      intro hcon
      exact MiddlewareResult.noConfusion hcon

/-- C10 witness: concrete instantiation — a presented token `"tok"` is
echoed unchanged whatever the key, an absent header gets a fresh signed
credential, and no input yields 401. -/
theorem c10_token_passthrough_witness :
    checkOrCreateToken (fun s => "signed-" ++ s) "f" (some "tok")
      = MiddlewareResult.next (some "tok") none ∧
    checkOrCreateToken (fun s => "signed-" ++ s) "f" (some "tok")
      = checkOrCreateToken (fun s => "other-" ++ s) "g" (some "tok") ∧
    (jsTruthyStr none = false →
      checkOrCreateToken (fun s => "signed-" ++ s) "f" none
        = MiddlewareResult.next (some ("signed-" ++ "f")) none) ∧
    checkOrCreateToken (fun s => "signed-" ++ s) "f" none
      ≠ MiddlewareResult.unauthorized :=
  c10_token_passthrough (fun s => "signed-" ++ s) (fun s => "other-" ++ s)
    "f" "g" none "tok" (by decide)
